import Mathlib

/-!
Shallow embedding of the data pipeline in `src/d1.py` (a Streamlit dashboard
over the Alzheimer's & Healthy Aging dataset).  Strings are modelled as
`List Char` / `String`, pandas missing values (`NaN`) as `none`, and floats as
exact rationals `ℚ`.  Each definition mirrors one piece of the Python source:

* `commaToDot`        — `str.replace(',', '.')` on a text cell (d1.py line 35);
* `parseNumCore`      — `pd.to_numeric(..., errors='coerce')` on one trimmed
                        text cell: optional sign, digits with at most one
                        decimal point, optional exponent; failure is `none`
                        (d1.py line 36);
* `findall`           — `re.findall(r"[-+]?\d*\.\d+|\d+", s)`: left-to-right
                        non-overlapping scan, first alternative (signed
                        decimal) preferred over second (unsigned integer)
                        (d1.py line 16);
* `extract_coords`    — the function of the same name (d1.py lines 11–21);
* `cleanRow` / `cleanTable` — the cleaning loop of `load_data`
                        (d1.py lines 32–41);
* `load_data`         — `load_data`'s failure semantics (lines 24–46), the
                        read of the resource abstracted as an `Except`;
* `selectPrimary` / `selectLocations` — the two filter stages `df_mapa`
                        (line 67) and `df_filtered` (line 101);
* `groupedAggregate`  — `df_mapa.groupby(['LocationAbbr','LocationDesc'])
                        ['Data_Value'].mean()` (line 77): pandas drops rows
                        whose group key contains a missing value, and the mean
                        of a group skips missing values, a group with only
                        missing values getting `NaN` (modelled `some none`).
-/

/-- Numeric value of a list of decimal digit characters, as Python's
`int`/`float` reads them (most significant first). -/
def digitsVal (ds : List Char) : ℕ :=
  ds.foldl (fun a c => 10 * a + (c.toNat - 48)) 0

/-- Consume an optional leading sign; returns (isNegative, rest).
Mirrors the sign handling of both `float()` and the regex `[-+]?`. -/
def parseSign : List Char → Bool × List Char
  | '+' :: cs => (false, cs)
  | '-' :: cs => (true, cs)
  | cs => (false, cs)

/-- Mantissa of a float literal: `digits+`, `digits+ . digits*` or
`. digits+` (as accepted by Python's `float` / pandas' numeric parser).
Returns `((m, k), rest)` where the mantissa's value is `m / 10^k` and `rest`
is the unconsumed suffix. -/
def parseMantissa (cs : List Char) : Option ((ℕ × ℕ) × List Char) :=
  let ip := cs.takeWhile Char.isDigit
  let rest := cs.dropWhile Char.isDigit
  match rest with
  | '.' :: rest2 =>
      let fp := rest2.takeWhile Char.isDigit
      let rest3 := rest2.dropWhile Char.isDigit
      if ip.isEmpty && fp.isEmpty then none
      else some ((digitsVal ip * 10 ^ fp.length + digitsVal fp, fp.length), rest3)
  | _ =>
      if ip.isEmpty then none else some ((digitsVal ip, 0), rest)

/-- Exponent tail after `e`/`E`: optional sign then digits, which must end the
string.  Returns the exponent's sign and magnitude. -/
def parseExpTail (cs : List Char) : Option (Bool × ℕ) :=
  let sr := parseSign cs
  let ds := sr.2.takeWhile Char.isDigit
  let rest := sr.2.dropWhile Char.isDigit
  if ds.isEmpty || !rest.isEmpty then none
  else some (sr.1, digitsVal ds)

/-- Optional exponent part, which must consume the whole remaining string. -/
def parseExponent : List Char → Option (Bool × ℕ)
  | [] => some (false, 0)
  | 'e' :: cs => parseExpTail cs
  | 'E' :: cs => parseExpTail cs
  | _ => none

/-- One text cell parsed as a float the way `pd.to_numeric(errors='coerce')` /
Python `float()` does (on the ASCII fragment this dataset uses):
optional sign, mantissa with at most one decimal point, optional exponent;
anything else is `none` — the missing marker, never an exception.  The value
is the exact rational `± mantissa · 10^±exponent`, floats idealised as exact
rationals. -/
def parseNumCore (cs : List Char) : Option ℚ :=
  let sr := parseSign cs
  match parseMantissa sr.2 with
  | none => none
  | some mr =>
      match parseExponent mr.2 with
      | none => none
      | some ex =>
          let sn : ℤ := if sr.1 then -(mr.1.1 : ℤ) else (mr.1.1 : ℤ)
          if ex.1 then some (mkRat sn (10 ^ (mr.1.2 + ex.2)))
          else some (mkRat (sn * 10 ^ ex.2) (10 ^ mr.1.2))

/-- Python `float()` strips surrounding whitespace before parsing. -/
def trimChars (cs : List Char) : List Char :=
  ((cs.dropWhile Char.isWhitespace).reverse.dropWhile Char.isWhitespace).reverse

/-- `pd.to_numeric(s, errors='coerce')` on a text cell `s`. -/
def parseNum (s : String) : Option ℚ :=
  parseNumCore (trimChars s.data)

/-- `str.replace(',', '.')` — every comma becomes a decimal point
(d1.py line 35). -/
def commaToDot (s : String) : String :=
  ⟨s.data.map (fun c => if c = ',' then '.' else c)⟩

/-- Numeric coercion of one text cell as `load_data` performs it
(d1.py lines 35–36): replace every `,` by `.`, then parse, unparseable
values becoming the missing marker. -/
def coerceNumeric (s : String) : Option ℚ :=
  parseNum (commaToDot s)

/-- First regex alternative `[-+]?\d*\.\d+` at the current position:
optional sign, greedy digits, a literal dot, then at least one digit
(greedy).  Returns the matched characters and the rest of the input. -/
def alt1 (cs : List Char) : Option (List Char × List Char) :=
  let sr : List Char × List Char :=
    match cs with
    | '+' :: rest => (['+'], rest)
    | '-' :: rest => (['-'], rest)
    | _ => ([], cs)
  let ip := sr.2.takeWhile Char.isDigit
  let rest := sr.2.dropWhile Char.isDigit
  match rest with
  | '.' :: rest2 =>
      let fp := rest2.takeWhile Char.isDigit
      let rest3 := rest2.dropWhile Char.isDigit
      if fp.isEmpty then none
      else some (sr.1 ++ ip ++ '.' :: fp, rest3)
  | _ => none

/-- Second regex alternative `\d+` at the current position (no sign):
a maximal nonempty run of digits. -/
def alt2 (cs : List Char) : Option (List Char × List Char) :=
  let ds := cs.takeWhile Char.isDigit
  if ds.isEmpty then none
  else some (ds, cs.dropWhile Char.isDigit)

/-- A match of `[-+]?\d*\.\d+|\d+` anchored at the current position:
the first alternative is preferred, as Python's regex engine does. -/
def matchAt (cs : List Char) : Option (List Char × List Char) :=
  match alt1 cs with
  | some r => some r
  | none => alt2 cs

/-- `re.findall` scan with explicit fuel (each step consumes at least one
character, so `cs.length` fuel suffices): at each position try to match;
on success, emit the token and resume after it, otherwise advance one
character. -/
def findallAux : ℕ → List Char → List (List Char)
  | 0, _ => []
  | _ + 1, [] => []
  | fuel + 1, c :: rest =>
      match matchAt (c :: rest) with
      | some (tok, after) => tok :: findallAux fuel after
      | none => findallAux fuel rest

/-- `re.findall(r"[-+]?\d*\.\d+|\d+", s)` (d1.py line 16). -/
def findall (cs : List Char) : List (List Char) :=
  findallAux cs.length cs

/-- `extract_coords` (d1.py lines 11–21).  The argument is the cell of the
`Geolocation` column, `none` standing for a pandas missing value (`pd.isna`).
If the cell is missing or its text is all whitespace (`str(x).strip() == ""`)
the result is `(None, None)`; otherwise all numeric tokens are extracted and,
when there are at least two, the second is returned as latitude and the first
as longitude (`float` on a matched token always succeeds; the `except` branch,
also yielding `(None, None)`, is kept for the unreachable failure case). -/
def extract_coords (x : Option String) : Option ℚ × Option ℚ :=
  match x with
  | none => (none, none)
  | some s =>
      if s.data.all Char.isWhitespace then (none, none)
      else
        let toks := findall s.data
        match toks[1]?, toks[0]? with
        | some t1, some t0 =>
            match parseNumCore t1, parseNumCore t0 with
            | some la, some lo => (some la, some lo)
            | _, _ => (none, none)
        | _, _ => (none, none)

/-- One raw record of the dataset, the three numeric columns still text
(the `dtype == 'object'` case of d1.py line 34) and missing categorical or
geolocation cells modelled as `none`. -/
structure RawRow where
  topic : Option String
  ageGroup : Option String
  locationAbbr : Option String
  locationDesc : Option String
  stratification1 : Option String
  dataValue : String
  lowConfidenceLimit : String
  highConfidenceLimit : String
  geolocation : Option String
deriving Repr, DecidableEq

/-- One cleaned record: numeric columns coerced, `lat`/`lon` appended. -/
structure CleanRow where
  topic : Option String
  ageGroup : Option String
  locationAbbr : Option String
  locationDesc : Option String
  stratification1 : Option String
  dataValue : Option ℚ
  lowConfidenceLimit : Option ℚ
  highConfidenceLimit : Option ℚ
  geolocation : Option String
  lat : Option ℚ
  lon : Option ℚ
deriving Repr, DecidableEq

/-- The per-row effect of `load_data`'s cleaning (d1.py lines 32–41):
numeric coercion in place on the three numeric columns, `lat`/`lon` derived
from `Geolocation`, every other column untouched. -/
def cleanRow (r : RawRow) : CleanRow :=
  { topic := r.topic
    ageGroup := r.ageGroup
    locationAbbr := r.locationAbbr
    locationDesc := r.locationDesc
    stratification1 := r.stratification1
    dataValue := coerceNumeric r.dataValue
    lowConfidenceLimit := coerceNumeric r.lowConfidenceLimit
    highConfidenceLimit := coerceNumeric r.highConfidenceLimit
    geolocation := r.geolocation
    lat := (extract_coords r.geolocation).1
    lon := (extract_coords r.geolocation).2 }

/-- The cleaning step of `load_data` over the whole table: columnwise
transforms aligned by row index, no reordering (d1.py lines 32–41). -/
def cleanTable (rows : List RawRow) : List CleanRow :=
  rows.map cleanRow

/-- `load_data` (d1.py lines 24–46).  Reading the resource is abstracted as an
`Except String (List RawRow)`: `.error e` is the exception raised when the
file cannot be opened or read.  On failure the function emits exactly one
diagnostic (`st.error(...)`) and returns `None`; on success it returns the
cleaned table and no diagnostic. -/
def load_data (resource : Except String (List RawRow)) :
    Option (List CleanRow) × List String :=
  match resource with
  | .error e => (none, ["Error al cargar el archivo: " ++ e])
  | .ok rows => (some (cleanTable rows), [])

/-- The module-level guard `if df is not None:` (d1.py line 52): the dashboard
body runs only when `load_data` produced a table. -/
def dashboardRuns (df : Option (List CleanRow)) : Bool :=
  df.isSome

/-- The primary filter `df_mapa` (d1.py line 67): exact match on `Topic` and
`Age Group`.  A missing cell compares unequal to any selected value, as pandas
`==` on `NaN` yields `False`. -/
def primaryPred (topic age : String) (r : CleanRow) : Bool :=
  r.topic == some topic && r.ageGroup == some age

/-- `df[(df['Topic'] == tema_sel) & (df['Age Group'] == edad_sel)]`. -/
def selectPrimary (t : List CleanRow) (topic age : String) : List CleanRow :=
  t.filter (primaryPred topic age)

/-- The secondary membership predicate of `df_filtered` (d1.py line 101):
`df_mapa['LocationDesc'].isin(estados_sel)`; a missing cell is in no set. -/
def locationPred (locs : List String) (r : CleanRow) : Bool :=
  match r.locationDesc with
  | some d => locs.contains d
  | none => false

/-- `df_mapa[df_mapa['LocationDesc'].isin(estados_sel)]`. -/
def selectLocations (t : List CleanRow) (locs : List String) : List CleanRow :=
  t.filter (locationPred locs)

/-- The group key of d1.py line 77.  pandas `groupby` drops rows whose key
contains a missing value, so the key exists only when both cells are
present. -/
def groupKey (r : CleanRow) : Option (String × String) :=
  match r.locationAbbr, r.locationDesc with
  | some a, some d => some (a, d)
  | _, _ => none

/-- The `Data_Value` cells of the rows of group `k`. -/
def groupVals (t : List CleanRow) (k : String × String) : List (Option ℚ) :=
  (t.filter (fun r => groupKey r == some k)).map (fun r => r.dataValue)

/-- `mean()` of one group's cells: the arithmetic mean of the non-missing
values, `none` (pandas `NaN`) when every value is missing. -/
def meanOpt (vs : List (Option ℚ)) : Option ℚ :=
  let xs := vs.filterMap id
  if xs.length = 0 then none else some (xs.sum / (xs.length : ℚ))

/-- `t.groupby(['LocationAbbr','LocationDesc'])['Data_Value'].mean()` as a
mapping (d1.py line 77): `none` when no row of `t` has key `k` (the group does
not exist), `some m` when the group exists with mean `m` (`m = none` being
pandas `NaN` for an all-missing group). -/
def groupedAggregate (t : List CleanRow) (k : String × String) :
    Option (Option ℚ) :=
  let vs := groupVals t k
  if vs.length = 0 then none else some (meanOpt vs)

/-- A sample cleaned row used to instantiate the general theorems on concrete
tables (topic "T", age group "A", no confidence limits, no geolocation). -/
def mkRow (abbr desc : Option String) (dv : Option ℚ) : CleanRow :=
  { topic := some "T"
    ageGroup := some "A"
    locationAbbr := abbr
    locationDesc := desc
    stratification1 := none
    dataValue := dv
    lowConfidenceLimit := none
    highConfidenceLimit := none
    geolocation := none
    lat := none
    lon := none }

/-- The scenario table of the spec: rows
`[(IL, Chicago, 10), (IL, Chicago, 20), (CA, LA, missing)]`. -/
def scenarioRows : List CleanRow :=
  [mkRow (some "IL") (some "Chicago") (some 10),
    mkRow (some "IL") (some "Chicago") (some 20),
    mkRow (some "CA") (some "LA") none]

/-- C1 (counterexample): the regex `[-+]?\d*\.\d+|\d+` allows a sign only on
the decimal alternative, so the sign of the integer token `-87` in
`"POINT (-87 41)"` is not captured: the longitude comes out as `87`,
not `-87` as the claim states. -/
theorem C1_counterexample :
    extract_coords (some "POINT (-87 41)") = (some 41, some 87) ∧
    extract_coords (some "POINT (-87 41)") ≠ (some 41, some (-87)) := by
  constructor
  · decide
  · decide

/-- C1 (amended): `extract_coords` collects all substrings matching a signed
decimal or an *unsigned* integer (a sign immediately before an integer token
is not captured), in left-to-right order; when at least two tokens are found
it returns the second token as latitude and the first as longitude,
discarding further tokens.  `"POINT (-87.6298 41.8781)"` yields
lat = 41.8781 and lon = -87.6298, while `"POINT (-87 41)"` yields lon = 87
(the integer's sign is dropped). -/
theorem C1_extract_coords_swap (s : String) (toks : List (List Char))
    (t0 t1 : List Char) (la lo : ℚ)
    (hws : s.data.all Char.isWhitespace = false)
    (htoks : findall s.data = toks)
    (h0 : toks[0]? = some t0) (h1 : toks[1]? = some t1)
    (hla : parseNumCore t1 = some la) (hlo : parseNumCore t0 = some lo) :
    extract_coords (some s) = (some la, some lo) ∧
    extract_coords (some "POINT (-87.6298 41.8781)") =
      (some (41.8781 : ℚ), some (-87.6298 : ℚ)) ∧
    extract_coords (some "POINT (-87 41)") = (some (41 : ℚ), some (87 : ℚ)) := by
  refine ⟨?_, ?_, by decide⟩
  · simp [extract_coords, hws, htoks, h0, h1, hla, hlo]
  · have h2 : extract_coords (some "POINT (-87.6298 41.8781)") =
        (some (mkRat 418781 10000), some (mkRat (-876298) 10000)) := by decide
    rw [h2]
    norm_num [Rat.mkRat_eq_div, Prod.ext_iff]

/-- Witness for C1: the amended theorem applied to the concrete input
`"POINT (-87.6298 41.8781)"`. -/
theorem C1_extract_coords_swap_witness :
    extract_coords (some "POINT (-87.6298 41.8781)") =
      (some (mkRat 418781 10000), some (mkRat (-876298) 10000)) :=
  (C1_extract_coords_swap "POINT (-87.6298 41.8781)"
    ["-87.6298".data, "41.8781".data] "-87.6298".data "41.8781".data
    (mkRat 418781 10000) (mkRat (-876298) 10000)
    (by decide) (by decide) (by decide) (by decide) (by decide) (by decide)).1

/-- C5: a missing, all-whitespace, or fewer-than-two-token geolocation cell
yields `(none, none)`, and for every input the derived latitude and longitude
are either both present or both absent — never a partial result. -/
theorem C5_geolocation_all_or_nothing (x : Option String) :
    ((extract_coords x).1 = none ↔ (extract_coords x).2 = none) ∧
    (∀ s, x = some s → (findall s.data).length < 2 →
      extract_coords x = (none, none)) ∧
    extract_coords none = (none, none) ∧
    extract_coords (some "") = (none, none) ∧
    extract_coords (some "N/A") = (none, none) := by
  refine ⟨?_, ?_, by decide, by decide, by decide⟩
  · cases x with
    | none => simp [extract_coords]
    | some s =>
        simp only [extract_coords]
        split
        · simp
        · split <;> (try split) <;> simp
  · intro s hx hlen
    subst hx
    have h1 : (findall s.data)[1]? = none := List.getElem?_eq_none (by omega)
    simp only [extract_coords]
    split
    · rfl
    · split <;> simp_all

/-- Witness for C5: the theorem applied to `"abc"`, whose text contains no
numeric token at all. -/
theorem C5_geolocation_all_or_nothing_witness :
    extract_coords (some "abc") = (none, none) :=
  (C5_geolocation_all_or_nothing (some "abc")).2.1 "abc" rfl (by decide)

lemma count_dropWhile_of_not (p : Char → Bool) (a : Char) (l : List Char)
    (ha : p a = false) : (l.dropWhile p).count a = l.count a := by
  conv_rhs => rw [← List.takeWhile_append_dropWhile (p := p) (l := l)]
  rw [List.count_append]
  have h0 : (l.takeWhile p).count a = 0 := by
    rw [List.count_eq_zero]
    intro hmem
    exact absurd (List.mem_takeWhile_imp hmem) (by simp [ha])
  omega

lemma count_dot_takeWhile_digit (l : List Char) :
    ((l.takeWhile Char.isDigit).count '.') = 0 := by
  rw [List.count_eq_zero]
  intro hmem
  exact absurd (List.mem_takeWhile_imp hmem) (by decide)

lemma count_reverse_char (l : List Char) (a : Char) :
    l.reverse.count a = l.count a := by
  simp [List.count_reverse]

lemma count_dot_trimChars (l : List Char) :
    (trimChars l).count '.' = l.count '.' := by
  unfold trimChars
  rw [count_reverse_char, count_dropWhile_of_not _ _ _ (by decide),
    count_reverse_char, count_dropWhile_of_not _ _ _ (by decide)]

lemma count_map_comma (l : List Char) :
    (l.map (fun c => if c = ',' then '.' else c)).count '.' =
      l.count ',' + l.count '.' := by
  induction l with
  | nil => rfl
  | cons c l ih =>
      by_cases hc : c = ','
      · subst hc
        simp [List.count_cons, ih]
        omega
      · by_cases hd : c = '.'
        · subst hd
          simp [List.count_cons, ih]
          omega
        · simp [List.count_cons, hc, hd, ih, Ne.symm hc, Ne.symm hd]

lemma parseSign_count_dot (cs : List Char) :
    ((parseSign cs).2).count '.' = cs.count '.' := by
  unfold parseSign
  split <;> simp [List.count_cons]

lemma parseExpTail_count_dot (cs : List Char) (v : Bool × ℕ)
    (h : parseExpTail cs = some v) : cs.count '.' = 0 := by
  unfold parseExpTail at h
  dsimp only at h
  split at h
  · exact absurd h (by simp)
  · rename_i hcond
    rw [Bool.or_eq_true, not_or, Bool.not_eq_true, Bool.not_eq_true] at hcond
    have hrest : ((parseSign cs).2.dropWhile Char.isDigit) = [] := by
      have := hcond.2
      simpa [List.isEmpty_iff] using this
    rw [← parseSign_count_dot cs]
    conv_lhs => rw [← List.takeWhile_append_dropWhile (p := Char.isDigit)
      (l := (parseSign cs).2)]
    rw [List.count_append, hrest, count_dot_takeWhile_digit]
    rfl

lemma parseExponent_count_dot (cs : List Char) (v : Bool × ℕ)
    (h : parseExponent cs = some v) : cs.count '.' = 0 := by
  unfold parseExponent at h
  split at h
  · rfl
  · rename_i cs2
    have := parseExpTail_count_dot cs2 v h
    simp [List.count_cons, this]
  · rename_i cs2
    have := parseExpTail_count_dot cs2 v h
    simp [List.count_cons, this]
  · exact absurd h (by simp)

lemma parseMantissa_count_dot (cs : List Char) (mr : (ℕ × ℕ) × List Char)
    (h : parseMantissa cs = some mr) :
    cs.count '.' ≤ mr.2.count '.' + 1 := by
  unfold parseMantissa at h
  dsimp only at h
  split at h
  · rename_i rest2 heq
    split at h
    · exact absurd h (by simp)
    · have h2 : mr.2 = rest2.dropWhile Char.isDigit := by
        have := congrArg (fun o => Option.map Prod.snd o) h
        simpa using this.symm
      have h3 : cs.count '.' =
          (cs.takeWhile Char.isDigit).count '.' +
            (cs.dropWhile Char.isDigit).count '.' := by
        conv_lhs => rw [← List.takeWhile_append_dropWhile (p := Char.isDigit)
          (l := cs)]
        rw [List.count_append]
      rw [h3, heq, count_dot_takeWhile_digit, h2,
        count_dropWhile_of_not _ _ _ (by decide)]
      simp [List.count_cons]
  · split at h
    · exact absurd h (by simp)
    · have h2 : mr.2 = cs.dropWhile Char.isDigit := by
        have := congrArg (fun o => Option.map Prod.snd o) h
        simpa using this.symm
      rw [h2, count_dropWhile_of_not _ _ _ (by decide)]
      omega

lemma parseNumCore_count_dot (cs : List Char) (v : ℚ)
    (h : parseNumCore cs = some v) : cs.count '.' ≤ 1 := by
  unfold parseNumCore at h
  dsimp only at h
  cases hm : parseMantissa (parseSign cs).2 with
  | none => rw [hm] at h; exact absurd h (by simp)
  | some mr =>
      rw [hm] at h
      dsimp only at h
      cases he : parseExponent mr.2 with
      | none => rw [he] at h; simp at h
      | some ex =>
          have h1 := parseMantissa_count_dot _ _ hm
          have h2 := parseExponent_count_dot _ _ he
          have h3 := parseSign_count_dot cs
          omega

lemma commaToDot_idem (s : String) :
    commaToDot (commaToDot s) = commaToDot s := by
  unfold commaToDot
  congr 1
  show (s.data.map _).map _ = s.data.map _
  rw [List.map_map]
  apply List.map_congr_left
  intro c _
  by_cases hc : c = ','
  · simp [hc]
  · simp [hc]

/-- C3: numeric coercion replaces every `,` with `.` before parsing, so a
`,`-decimal string coerces to the same float as the equivalent `.`-decimal
string, and a value that still fails to parse becomes the missing marker
(the coercion is a total function into `Option`, so no exception reaches the
caller). -/
theorem C3_comma_decimal (s : String) :
    coerceNumeric s = coerceNumeric (commaToDot s) ∧
    (parseNum (commaToDot s) = none → coerceNumeric s = none) ∧
    coerceNumeric "12,5" = some (12.5 : ℚ) ∧
    coerceNumeric "12,5" = coerceNumeric "12.5" := by
  refine ⟨?_, fun h => h, ?_, by decide⟩
  · show parseNum (commaToDot s) = parseNum (commaToDot (commaToDot s))
    rw [commaToDot_idem]
  · have h : coerceNumeric "12,5" = some (mkRat 125 10) := by decide
    rw [h]
    norm_num [Rat.mkRat_eq_div]

/-- Witness for C3: the unparseable cell `"abc"` becomes the missing
marker. -/
theorem C3_comma_decimal_witness : coerceNumeric "abc" = none :=
  (C3_comma_decimal "abc").2.1 (by decide)

/-- C9: a `,` used as thousands separator is reinterpreted as a decimal
point: `"1,234"` coerces to `1.234`, not `1234` and not missing; any text in
which `,` and `.` together occur at least twice (in particular text with both
a `.` and a `,`, or more than one `,`) becomes missing, because the rewritten
string has several decimal points. -/
theorem C9_comma_reinterpreted (s : String) :
    coerceNumeric "1,234" = some (1.234 : ℚ) ∧
    coerceNumeric "1,234" ≠ some (1234 : ℚ) ∧
    (2 ≤ s.data.count ',' + s.data.count '.' → coerceNumeric s = none) ∧
    coerceNumeric "1.234,5" = none := by
  refine ⟨?_, by decide, ?_, by decide⟩
  · have h : coerceNumeric "1,234" = some (mkRat 617 500) := by decide
    rw [h]
    norm_num [Rat.mkRat_eq_div]
  · intro hcount
    cases hc : coerceNumeric s with
    | none => rfl
    | some v =>
        exfalso
        have h1 : parseNumCore (trimChars (commaToDot s).data) = some v := hc
        have h2 := parseNumCore_count_dot _ _ h1
        rw [count_dot_trimChars] at h2
        have h3 : (commaToDot s).data.count '.' =
            s.data.count ',' + s.data.count '.' := count_map_comma s.data
        omega

/-- Witness for C9: `"1.234,5"` (both separators present) becomes missing. -/
theorem C9_comma_reinterpreted_witness : coerceNumeric "1.234,5" = none :=
  (C9_comma_reinterpreted "1.234,5").2.2.1 (by decide)

/-- C6: the cleaning step preserves the number and order of rows (row `i` of
the cleaned table comes from row `i` of the input), leaves every
non-numeric column (`Topic`, `Age Group`, `LocationAbbr`, `LocationDesc`,
`Stratification1`, `Geolocation`) unchanged, rewrites only the three numeric
columns through `coerceNumeric`, and appends `lat`/`lon` derived from the
same row's `Geolocation` cell. -/
theorem C6_cleaning_preserves_frame (rows : List RawRow) (i : ℕ) (r : RawRow) :
    (cleanTable rows).length = rows.length ∧
    (cleanTable rows)[i]? = (rows[i]?).map cleanRow ∧
    ((cleanTable rows)[i]?).map (fun c => c.topic) =
      (rows[i]?).map (fun r0 => r0.topic) ∧
    ((cleanTable rows)[i]?).map (fun c => c.ageGroup) =
      (rows[i]?).map (fun r0 => r0.ageGroup) ∧
    ((cleanTable rows)[i]?).map (fun c => c.locationAbbr) =
      (rows[i]?).map (fun r0 => r0.locationAbbr) ∧
    ((cleanTable rows)[i]?).map (fun c => c.locationDesc) =
      (rows[i]?).map (fun r0 => r0.locationDesc) ∧
    ((cleanTable rows)[i]?).map (fun c => c.stratification1) =
      (rows[i]?).map (fun r0 => r0.stratification1) ∧
    ((cleanTable rows)[i]?).map (fun c => c.geolocation) =
      (rows[i]?).map (fun r0 => r0.geolocation) ∧
    (cleanRow r).dataValue = coerceNumeric r.dataValue ∧
    (cleanRow r).lowConfidenceLimit = coerceNumeric r.lowConfidenceLimit ∧
    (cleanRow r).highConfidenceLimit = coerceNumeric r.highConfidenceLimit ∧
    (cleanRow r).lat = (extract_coords r.geolocation).1 ∧
    (cleanRow r).lon = (extract_coords r.geolocation).2 := by
  refine ⟨by simp [cleanTable], by simp [cleanTable, List.getElem?_map],
    ?_, ?_, ?_, ?_, ?_, ?_, rfl, rfl, rfl, rfl, rfl⟩ <;>
    cases h : rows[i]? <;>
      simp [cleanTable, List.getElem?_map, h, cleanRow]

/-- C8: when the input resource cannot be opened or read, `load_data` emits
exactly one diagnostic and yields no table, and the module-level guard
(`if df is not None`) halts the dashboard on an absent table; on a successful
read no diagnostic is emitted and the dashboard proceeds. -/
theorem C8_load_failure_halts (e : String) (rows : List RawRow) :
    (load_data (.error e)).1 = none ∧
    (load_data (.error e)).2.length = 1 ∧
    dashboardRuns (load_data (.error e)).1 = false ∧
    (load_data (.ok rows)).2 = [] ∧
    dashboardRuns (load_data (.ok rows)).1 = true := by
  simp [load_data, dashboardRuns]

/-- C4: applying the secondary location-membership filter to the
primary-filtered result equals filtering the cleaned table directly by the
conjunction of the primary and secondary predicates, whenever the requested
locations all occur among the primary result's `LocationDesc` values (the
candidate universe the widget offers). -/
theorem C4_filter_composition (t : List CleanRow) (topic age : String)
    (locs : List String)
    (_hsub : ∀ l ∈ locs, ∃ r ∈ selectPrimary t topic age,
      r.locationDesc = some l) :
    selectLocations (selectPrimary t topic age) locs =
      t.filter (fun r => primaryPred topic age r && locationPred locs r) := by
  unfold selectLocations selectPrimary
  rw [List.filter_filter]
  exact List.filter_congr (fun r _ => Bool.and_comm _ _)

/-- Witness for C4: a two-row table, the selection keeping the Chicago
row. -/
theorem C4_filter_composition_witness :
    selectLocations
        (selectPrimary [mkRow (some "IL") (some "Chicago") (some 10),
          mkRow (some "CA") (some "LA") (some 20)] "T" "A") ["Chicago"] =
      List.filter
        (fun r => primaryPred "T" "A" r && locationPred ["Chicago"] r)
        [mkRow (some "IL") (some "Chicago") (some 10),
          mkRow (some "CA") (some "LA") (some 20)] :=
  C4_filter_composition _ "T" "A" ["Chicago"] (by decide)

lemma groupedAggregate_eq_mean (t : List CleanRow) (k : String × String)
    (xs : List ℚ) (hxs : (groupVals t k).filterMap id = xs) (hne : xs ≠ []) :
    groupedAggregate t k = some (some (xs.sum / (xs.length : ℚ))) := by
  have hvs : ¬ (groupVals t k).length = 0 := by
    rw [List.length_eq_zero]
    intro h0
    exact hne (by rw [← hxs, h0]; rfl)
  have hxl : ¬ xs.length = 0 := by
    rw [List.length_eq_zero]; exact hne
  unfold groupedAggregate meanOpt
  dsimp only
  rw [if_neg hvs, hxs, if_neg hxl]

lemma groupedAggregate_all_missing (t : List CleanRow) (k : String × String)
    (hex : ∃ r ∈ t, groupKey r = some k)
    (hall : ∀ r ∈ t, groupKey r = some k → r.dataValue = none) :
    groupedAggregate t k = some none := by
  have hvs : ¬ (groupVals t k).length = 0 := by
    rw [List.length_eq_zero]
    obtain ⟨r, hr, hk⟩ := hex
    intro h0
    have hmem : r.dataValue ∈ groupVals t k :=
      List.mem_map_of_mem _ (List.mem_filter.2 ⟨hr, by simp [hk]⟩)
    rw [h0] at hmem
    exact absurd hmem (List.not_mem_nil _)
  have hxs : (groupVals t k).filterMap id = [] := by
    rw [List.filterMap_eq_nil_iff]
    intro v hv
    obtain ⟨r, hr, rfl⟩ := List.mem_map.1 hv
    have hmem := List.mem_filter.1 hr
    exact hall r hmem.1 (by simpa using hmem.2)
  unfold groupedAggregate meanOpt
  dsimp only
  rw [if_neg hvs, hxs]
  rfl

/-- C2: within each (LocationAbbr, LocationDesc) group, the aggregate is the
arithmetic mean of `Data_Value` over the group's non-missing values only, and
a group all of whose values are missing yields a missing aggregate (not zero,
not an error); the spec's scenario table yields
`{(IL,Chicago) ↦ 15, (CA,LA) ↦ missing}`. -/
theorem C2_group_mean_skips_missing (t : List CleanRow) (k : String × String)
    (xs : List ℚ) :
    ((∃ r ∈ t, groupKey r = some k) →
      (∀ r ∈ t, groupKey r = some k → r.dataValue = none) →
      groupedAggregate t k = some none) ∧
    ((groupVals t k).filterMap id = xs → xs ≠ [] →
      groupedAggregate t k = some (some (xs.sum / (xs.length : ℚ)))) ∧
    groupedAggregate scenarioRows ("IL", "Chicago") = some (some 15) ∧
    groupedAggregate scenarioRows ("CA", "LA") = some none ∧
    groupedAggregate scenarioRows ("CA", "LA") ≠ some (some 0) := by
  refine ⟨groupedAggregate_all_missing t k, groupedAggregate_eq_mean t k xs,
    ?_, ?_, ?_⟩
  · have h := groupedAggregate_eq_mean scenarioRows ("IL", "Chicago") [10, 20]
      (by decide) (by decide)
    rw [h]
    norm_num
  · exact groupedAggregate_all_missing scenarioRows _ (by decide) (by decide)
  · rw [groupedAggregate_all_missing scenarioRows _ (by decide) (by decide)]
    simp

/-- Witness for C2: the scenario table's (IL, Chicago) group, whose
non-missing values are 10 and 20. -/
theorem C2_group_mean_skips_missing_witness :
    groupedAggregate scenarioRows ("IL", "Chicago") =
      some (some (([10, 20] : List ℚ).sum / (([10, 20] : List ℚ).length : ℚ))) :=
  (C2_group_mean_skips_missing scenarioRows ("IL", "Chicago") [10, 20]).2.1
    (by decide) (by decide)

/-- C7: permuting the rows of a filtered subset leaves the grouped aggregate
(the mapping from (LocationAbbr, LocationDesc) to mean `Data_Value`)
unchanged. -/
theorem C7_perm_invariance (t₁ t₂ : List CleanRow) (h : t₁.Perm t₂)
    (k : String × String) :
    groupedAggregate t₁ k = groupedAggregate t₂ k := by
  have hp : (groupVals t₁ k).Perm (groupVals t₂ k) :=
    (h.filter _).map _
  have hfp : ((groupVals t₁ k).filterMap id).Perm
      ((groupVals t₂ k).filterMap id) := hp.filterMap _
  unfold groupedAggregate meanOpt
  dsimp only
  rw [hp.length_eq, hfp.length_eq, hfp.sum_eq]

/-- Witness for C7: swapping the two rows of a concrete table. -/
theorem C7_perm_invariance_witness :
    groupedAggregate [mkRow (some "IL") (some "Chicago") (some 10),
        mkRow (some "CA") (some "LA") (some 20)] ("IL", "Chicago") =
      groupedAggregate [mkRow (some "CA") (some "LA") (some 20),
        mkRow (some "IL") (some "Chicago") (some 10)] ("IL", "Chicago") :=
  C7_perm_invariance _ _ (List.Perm.swap _ _ _) ("IL", "Chicago")

/-- C10: a row whose `LocationAbbr` or `LocationDesc` is missing belongs to
no group (its group key is missing) and contributes nothing to the grouped
aggregate: prepending such a row leaves every group's aggregate unchanged. -/
theorem C10_missing_key_dropped (r : CleanRow) (t : List CleanRow)
    (h : r.locationAbbr = none ∨ r.locationDesc = none) (k : String × String) :
    groupKey r = none ∧
    groupedAggregate (r :: t) k = groupedAggregate t k := by
  have hk : groupKey r = none := by
    unfold groupKey
    rcases h with h | h
    · rw [h]
    · rw [h]
      cases hr : r.locationAbbr <;> rfl
  refine ⟨hk, ?_⟩
  have hfilter : (r :: t).filter (fun r0 => groupKey r0 == some k) =
      t.filter (fun r0 => groupKey r0 == some k) := by
    simp [List.filter_cons, hk]
  unfold groupedAggregate groupVals
  dsimp only
  rw [hfilter]

/-- Witness for C10: a row with a missing `LocationAbbr` does not change the
(IL, Chicago) aggregate. -/
theorem C10_missing_key_dropped_witness :
    groupedAggregate (mkRow none (some "Chicago") (some 10) ::
        [mkRow (some "IL") (some "Chicago") (some 20)]) ("IL", "Chicago") =
      groupedAggregate [mkRow (some "IL") (some "Chicago") (some 20)]
        ("IL", "Chicago") :=
  (C10_missing_key_dropped _ _ (Or.inl rfl) _).2
